import Mathlib

/-!
Shallow embedding of two CosmWasm contracts of the cw-hyperlane repository:
the cw20 warp token bridge (src/contracts/warp/cw20/src/contract.rs) and the
aggregate hook (src/contracts/hooks/aggregate/src/lib.rs), together with
theorems settling the specification claims about them.

Storage is modelled as an explicit record of `Option`-valued items (a missing
item is `none`, mirroring `Item::load` failing on absent keys).  Handlers are
state-passing functions returning either a successful `(state, response)`
pair, a recoverable `ContractError`, or a panic (Rust `unwrap`/`expect`),
which the `Outcome` type keeps distinct from recoverable errors.
-/

set_option autoImplicit false

/-- A chain-native address. `cosmwasm_std::Addr` is a validated string. -/
abbrev Addr := String

/-- A byte string (`HexBinary` / `Binary`); each entry is one byte value. -/
abbrev HexBinary := List Nat

/-- The error taxonomy shared by both contracts (spec section 7): recoverable
contract errors surfaced to the caller.  `std` covers storage / codec
pass-through errors (`StdError`). -/
inductive ContractError where
  | std (msg : String)
  | unauthorized
  | invalidReplyId
  deriving DecidableEq, Repr

/-- Result of a contract invocation: success, a recoverable error (the host
reverts all state writes of the transaction), or a panic coming from an
unchecked `unwrap`/`expect` in the Rust source. Keeping panics distinct from
errors is what lets the theorems separate a recoverable `RouteNotFound`
condition from an unchecked expectation-violation. -/
inductive Outcome (α : Type) where
  | ok (a : α)
  | err (e : ContractError)
  | panic (msg : String)
  deriving Repr

/-- Map over the success value of an `Outcome`. -/
def Outcome.map {α β : Type} (f : α → β) : Outcome α → Outcome β
  | .ok a => .ok (f a)
  | .err e => .err e
  | .panic m => .panic m

/-- Chain an `Except` computation (Rust `?` on a `Result`) into an `Outcome`
continuation. -/
def obind {α β : Type} (x : Except ContractError α) (f : α → Outcome β) : Outcome β :=
  match x with
  | .ok a => f a
  | .error e => .err e

/-- Chain an `Except` computation (Rust `?`) into another. -/
def ebind {α β : Type} (x : Except ContractError α) (f : α → Except ContractError β) :
    Except ContractError β :=
  match x with
  | .ok a => f a
  | .error e => .error e

/-- Rust `Option::expect(msg)` in `Outcome` context: panics on `none`. -/
def oexpect {α β : Type} (x : Option α) (msg : String) (f : α → Outcome β) : Outcome β :=
  match x with
  | some a => f a
  | none => .panic msg

@[simp] theorem Outcome.map_ok {α β : Type} (f : α → β) (a : α) :
    Outcome.map f (.ok a) = .ok (f a) := rfl

@[simp] theorem Outcome.map_err {α β : Type} (f : α → β) (e : ContractError) :
    Outcome.map f (.err e : Outcome α) = .err e := rfl

@[simp] theorem Outcome.map_panic {α β : Type} (f : α → β) (m : String) :
    Outcome.map f (.panic m : Outcome α) = .panic m := rfl

@[simp] theorem obind_ok {α β : Type} (a : α) (f : α → Outcome β) :
    obind (.ok a) f = f a := rfl

@[simp] theorem obind_error {α β : Type} (e : ContractError) (f : α → Outcome β) :
    obind (.error e) f = .err e := rfl

@[simp] theorem ebind_ok {α β : Type} (a : α) (f : α → Except ContractError β) :
    ebind (.ok a) f = f a := rfl

@[simp] theorem ebind_error {α β : Type} (e : ContractError) (f : α → Except ContractError β) :
    ebind (.error e) f = .error e := rfl

@[simp] theorem oexpect_some {α β : Type} (a : α) (msg : String) (f : α → Outcome β) :
    oexpect (some a) msg f = f a := rfl

@[simp] theorem oexpect_none {α β : Type} (msg : String) (f : α → Outcome β) :
    oexpect (none : Option α) msg f = .panic msg := rfl

/-- `cw_storage_plus::Item::load`: fails with a `StdError` when the item was
never saved. -/
def Item.load {α : Type} (x : Option α) : Except ContractError α :=
  match x with
  | some a => .ok a
  | none => .error (.std "item not found")

@[simp] theorem Item.load_some {α : Type} (a : α) : Item.load (some a) = .ok a := rfl

@[simp] theorem Item.load_none {α : Type} :
    Item.load (none : Option α) = .error (.std "item not found") := rfl

/-- `deps.api.addr_validate`: accepts a well-formed address string (validated
addresses pass through unchanged, as in `MockApi`); the empty string is the
representative malformed input. -/
def addrValidate (s : String) : Except ContractError Addr :=
  if s = "" then .error (.std "invalid address") else .ok s

/-- Validate a whole list of address strings, failing on the first bad one
(`iter().map(addr_validate).collect::<StdResult<_>>()`). -/
def validateAll : List String → Except ContractError (List Addr)
  | [] => .ok []
  | s :: rest =>
    ebind (addrValidate s) fun a =>
    ebind (validateAll rest) fun as => .ok (a :: as)

/-- An emitted event: type tag plus attribute key/value pairs. -/
structure Event where
  ty : String
  attributes : List (String × String)
  deriving DecidableEq, Repr

/-- `Event::add_attribute`. -/
def Event.addAttribute (e : Event) (k v : String) : Event :=
  { e with attributes := e.attributes ++ [(k, v)] }

/-- The warp message body exchanged between token routers
(`hpl_interface::warp::Message`): recipient (32 bytes), amount, metadata. -/
structure WarpMessage where
  recipient : HexBinary
  amount : Nat
  metadata : HexBinary
  deriving DecidableEq, Repr

/-- Side-effect messages the two contracts emit.  Wire encoding of the inner
payloads (`conv::to_burn_msg` etc., `mailbox::dispatch`, hook
`post_dispatch`) lives in collaborator crates outside the excerpt; each
constructor records the fields those helpers are given. -/
inductive CosmosMsg where
  | wasmInstantiate (admin : Option Addr) (codeId : Nat) (msg : HexBinary) (label : String)
  | burn (token : Addr) (amount : Nat)
  | mint (token : Addr) (recipient : Addr) (amount : Nat)
  | transfer (token : Addr) (recipient : Addr) (amount : Nat)
  | mailboxDispatch (mailbox : Addr) (destDomain : Nat) (destRouter : HexBinary)
      (body : WarpMessage) (hook : Option Addr) (metadata : Option HexBinary)
  | hookPostDispatch (hook : Addr) (metadata : HexBinary) (message : HexBinary)
  deriving DecidableEq, Repr

/-- When the host delivers a reply for a submessage. -/
inductive ReplyOn where
  | never
  | success
  | error
  | always
  deriving DecidableEq, Repr

/-- `cosmwasm_std::SubMsg` (gas limit elided — never set in this code). -/
structure SubMsg where
  id : Nat
  msg : CosmosMsg
  replyOn : ReplyOn
  deriving DecidableEq, Repr

/-- `SubMsg::new`: a fire-and-forget message (id 0, no reply). -/
def SubMsg.new (m : CosmosMsg) : SubMsg := ⟨0, m, .never⟩

/-- `SubMsg::reply_on_success`. -/
def SubMsg.replyOnSuccess (m : CosmosMsg) (id : Nat) : SubMsg := ⟨id, m, .success⟩

/-- `cosmwasm_std::Response`: ordered side-effect messages plus events. -/
structure Response where
  messages : List SubMsg
  events : List Event
  deriving DecidableEq, Repr

def Response.new : Response := ⟨[], []⟩

def Response.addMessage (r : Response) (m : CosmosMsg) : Response :=
  { r with messages := r.messages ++ [SubMsg.new m] }

def Response.addMessages (r : Response) (ms : List CosmosMsg) : Response :=
  { r with messages := r.messages ++ ms.map SubMsg.new }

def Response.addSubmessages (r : Response) (ms : List SubMsg) : Response :=
  { r with messages := r.messages ++ ms }

def Response.addEvent (r : Response) (e : Event) : Response :=
  { r with events := r.events ++ [e] }

/-- `cosmwasm_std::MessageInfo` (funds elided — unused by this code). -/
structure MessageInfo where
  sender : Addr
  deriving DecidableEq, Repr

/-- The contract environment: only the contract's own address is used. -/
structure EnvT where
  contractAddress : Addr
  deriving DecidableEq, Repr

/-- Render one byte as two lowercase hex digits (`HexBinary::to_hex`). -/
def byteHex (b : Nat) : String :=
  let digits := "0123456789abcdef".toList
  String.mk [digits.getD (b / 16 % 16) 'x', digits.getD (b % 16) 'x']

/-- Render a byte string as lowercase hex (`HexBinary::to_hex`). -/
def hexOfBytes (bs : HexBinary) : String :=
  String.join (bs.map byteHex)

namespace WarpCw20

/-! Embedding of src/contracts/warp/cw20/src/contract.rs. -/

/-- Token mode of the bridge (`hpl_interface::warp::TokenMode`). -/
inductive TokenMode where
  | bridged
  | collateral
  deriving DecidableEq, Repr

/-- Display form of the mode, used in the instantiate event attribute. -/
def TokenMode.display : TokenMode → String
  | .bridged => "bridged"
  | .collateral => "collateral"

/-- `TokenModeMsg<Cw20ModeBridged, Cw20ModeCollateral>`: Bridged carries the
code id and the (serialized) cw20 init message; Collateral carries the
address of an existing cw20 token. -/
inductive TokenModeMsg where
  | bridgedMode (codeId : Nat) (initMsg : HexBinary)
  | collateralMode (address : String)
  deriving DecidableEq, Repr

/-- `impl From<TokenModeMsg> for TokenMode` (collaborator crate): forgets the
per-mode payload. -/
def TokenModeMsg.mode : TokenModeMsg → TokenMode
  | .bridgedMode _ _ => .bridged
  | .collateralMode _ => .collateral

/-- Persisted storage of the warp cw20 contract: the `Item`s saved by
contract.rs (HRP, MODE, MAILBOX, TOKEN), the owner kept by the external
`hpl_ownable` helper, and the domain-to-router table kept by the external
`hpl_router` helper (an association list, one route per domain). -/
structure TokenState where
  hrp : Option String
  mode : Option TokenMode
  mailbox : Option Addr
  token : Option Addr
  owner : Option Addr
  routes : List (Nat × HexBinary)
  deriving DecidableEq, Repr

/-- Fresh storage: nothing saved yet. -/
def TokenState.empty : TokenState := ⟨none, none, none, none, none, []⟩

/-- Route lookup in the association table (`ROUTES.may_load`). -/
def routeLookup (routes : List (Nat × HexBinary)) (domain : Nat) : Option HexBinary :=
  (routes.find? (fun p => p.1 = domain)).map (fun p => p.2)

/-- `hpl_router::get_route` result: the queried domain together with the
optional configured route (`RouterSet`). -/
structure RouterSet where
  domain : Nat
  route : Option HexBinary
  deriving DecidableEq, Repr

/-- Modelled from the spec: `hpl_router::get_route` (the router collaborator
crate is outside the excerpt).  It reads the stored route for `domain`; an
unset domain yields `route = none` — the storage read itself succeeds, and
contract.rs then forces the option with `.expect("route not found")`
(spec section 4.4 calls this the reference expectation-violation behavior). -/
def get_route (st : TokenState) (domain : Nat) : Except ContractError RouterSet :=
  .ok ⟨domain, routeLookup st.routes domain⟩

/-- Modelled from the spec: overwrite-or-insert for `hpl_router`'s route
table (`set_route` overwrites unconditionally, spec section 4.4). -/
def routeSave (routes : List (Nat × HexBinary)) (domain : Nat) (route : HexBinary) :
    List (Nat × HexBinary) :=
  match routes with
  | [] => [(domain, route)]
  | p :: rest =>
    if p.1 = domain then (domain, route) :: rest else p :: routeSave rest domain route

/-- Modelled from the spec: `bech32_encode` from Bech32Codec re-encodes a
32-byte recipient under the local HRP (spec section 2); the exact encoding
lives outside the excerpt, so it is modelled as an injective rendering of
the prefix and the payload bytes. -/
def bech32_encode (hrp : String) (payload : HexBinary) : Except ContractError Addr :=
  .ok (hrp ++ "1" ++ hexOfBytes payload)

/-- Modelled from the spec: decoding an inbound body into a warp message
(`warp::Message: From<HexBinary>`, fixed layout per spec section 4.1):
32-byte recipient, 32-byte big-endian amount, then metadata. -/
def warpMessageOfBytes (body : HexBinary) : WarpMessage :=
  { recipient := body.take 32
    amount := ((body.drop 32).take 32).foldl (fun acc b => acc * 256 + b) 0
    metadata := body.drop 64 }

/-- Event helper of the warp cw20 crate (crate root, outside the excerpt):
prefixes the event type with the crate name. -/
def new_event (name : String) : Event := ⟨"hpl_warp_cw20::" ++ name, []⟩

/-- Reply tag of the sub-instantiation (constant from the crate root, outside
the excerpt; its concrete value is irrelevant, only its fixedness). -/
def REPLY_ID_CREATE_DENOM : Nat := 0

/-- `InstantiateMsg` of the warp cw20 contract. -/
structure InstantiateMsg where
  token : TokenModeMsg
  hrp : String
  owner : String
  mailbox : String
  deriving DecidableEq, Repr

/-- `warp::cw20::ReceiveMsg`: the single `TransferRemote` variant. -/
inductive ReceiveMsg where
  | transferRemote (destDomain : Nat) (recipient : HexBinary)
  deriving DecidableEq, Repr

/-- `cw20::Cw20ReceiveMsg`.  The `msg` field is a binary blob in the source,
parsed with `from_binary::<ReceiveMsg>`; it is carried here as the parse
result (`none` models an unparseable blob). -/
structure Cw20ReceiveMsg where
  sender : String
  amount : Nat
  msg : Option ReceiveMsg
  deriving DecidableEq, Repr

/-- `from_binary::<ReceiveMsg>(&msg.msg)?`. -/
def fromBinaryReceive (m : Option ReceiveMsg) : Except ContractError ReceiveMsg :=
  match m with
  | some r => .ok r
  | none => .error (.std "parse error")

/-- `hpl_interface::core::HandleMsg`: origin domain, origin sender (the
remote router), and the raw message body. -/
structure HandleMsg where
  origin : Nat
  sender : HexBinary
  body : HexBinary
  deriving DecidableEq, Repr

/-- Modelled from the spec: `hpl_router::handle` (collaborator crate outside
the excerpt) — `set_route` is owner-gated and overwrites unconditionally
(spec section 4.4). -/
inductive RouterMsg where
  | setRoute (domain : Nat) (route : HexBinary)
  deriving DecidableEq, Repr

/-- `ExecuteMsg` of the warp cw20 contract. -/
inductive ExecuteMsg where
  | router (msg : RouterMsg)
  | handle (msg : HandleMsg)
  | receive (msg : Cw20ReceiveMsg)
  deriving DecidableEq, Repr

/-- Modelled from the spec: route-table mutation via `hpl_router::handle`,
owner-gated (spec section 4.4). -/
def routerHandle (st : TokenState) (info : MessageInfo) :
    RouterMsg → Outcome (TokenState × Response)
  | .setRoute domain route =>
    obind (Item.load st.owner) fun owner =>
    if info.sender = owner then
      .ok ({ st with routes := routeSave st.routes domain route }, Response.new)
    else .err .unauthorized

/-- `instantiate` (contract.rs lines 26-75).  Saves HRP, MODE and MAILBOX,
initializes the owner, then either emits one `reply_on_success`
sub-instantiation (Bridged) or validates and stores the token address
synchronously (Collateral).  The cw2 version bookkeeping is elided (it is
storage the claims never consult). -/
def instantiate (st : TokenState) (env : EnvT) (info : MessageInfo) (msg : InstantiateMsg) :
    Outcome (TokenState × Response) :=
  let mode := msg.token.mode
  obind (addrValidate msg.owner) fun owner =>
  obind (addrValidate msg.mailbox) fun mailbox =>
  let st := { st with hrp := some msg.hrp, mode := some mode,
                      mailbox := some mailbox, owner := some owner }
  match msg.token with
  | .bridgedMode codeId initMsg =>
    let msgs := [SubMsg.replyOnSuccess
      (.wasmInstantiate (some env.contractAddress) codeId initMsg "token warp cw20")
      REPLY_ID_CREATE_DENOM]
    .ok (st, Response.new.addSubmessages msgs |>.addEvent
      ((new_event "instantiate").addAttribute "sender" info.sender
        |>.addAttribute "owner" owner
        |>.addAttribute "mode" mode.display
        |>.addAttribute "denom" ""))
  | .collateralMode address =>
    obind (addrValidate address) fun tokenAddr =>
    let st := { st with token := some tokenAddr }
    .ok (st, Response.new.addSubmessages [] |>.addEvent
      ((new_event "instantiate").addAttribute "sender" info.sender
        |>.addAttribute "owner" owner
        |>.addAttribute "mode" mode.display
        |>.addAttribute "denom" tokenAddr))

/-- `mailbox_handle` (contract.rs lines 126-166): caller must be the stored
mailbox, the message's origin sender must equal the configured route for the
origin domain (forced with `.expect("route not found")` when the domain has
no route), then a mint (Bridged) or transfer (Collateral) is emitted for the
bech32-re-encoded recipient. -/
def mailbox_handle (st : TokenState) (info : MessageInfo) (msg : HandleMsg) :
    Outcome (TokenState × Response) :=
  obind (Item.load st.mailbox) fun mailbox =>
  if info.sender = mailbox then
    obind (get_route st msg.origin) fun routerSet =>
    oexpect routerSet.route "route not found" fun route =>
    if msg.sender = route then
      let tokenMsg := warpMessageOfBytes msg.body
      obind (Item.load st.hrp) fun hrp =>
      obind (bech32_encode hrp tokenMsg.recipient) fun recipient =>
      obind (Item.load st.token) fun token =>
      obind (Item.load st.mode) fun mode =>
      let m := match mode with
        | .bridged => CosmosMsg.mint token recipient tokenMsg.amount
        | .collateral => CosmosMsg.transfer token recipient tokenMsg.amount
      .ok (st, Response.new.addMessage m |>.addEvent
        ((new_event "handle").addAttribute "recipient" recipient
          |>.addAttribute "token" token
          |>.addAttribute "amount" (toString tokenMsg.amount)))
    else .err .unauthorized
  else .err .unauthorized

/-- `transfer_remote` (contract.rs lines 168-212): loads token, mode and
mailbox, resolves the destination route (forced with
`.expect("route not found")`), emits a burn first when Bridged, then the
mailbox dispatch carrying recipient, amount and empty metadata. -/
def transfer_remote (st : TokenState) (receive_msg : Cw20ReceiveMsg)
    (dest_domain : Nat) (recipient : HexBinary) : Outcome (TokenState × Response) :=
  obind (Item.load st.token) fun token =>
  obind (Item.load st.mode) fun mode =>
  obind (Item.load st.mailbox) fun mailbox =>
  obind (get_route st dest_domain) fun routerSet =>
  oexpect routerSet.route "route not found" fun dest_router =>
  let msgs : List CosmosMsg :=
    (if mode = .bridged then [.burn token receive_msg.amount] else []) ++
    [.mailboxDispatch mailbox dest_domain dest_router
      ⟨recipient, receive_msg.amount, []⟩ none none]
  .ok (st, Response.new.addMessages msgs |>.addEvent
    ((new_event "transfer-remote").addAttribute "sender" receive_msg.sender
      |>.addAttribute "dest_domain" (toString dest_domain)
      |>.addAttribute "recipient" (hexOfBytes recipient)
      |>.addAttribute "token" token
      |>.addAttribute "amount" (toString receive_msg.amount)))

/-- `execute` (contract.rs lines 77-104): dispatch on the message variant;
the `Receive` arm requires the caller to be the stored token contract before
parsing the inner `TransferRemote`. -/
def execute (st : TokenState) (_env : EnvT) (info : MessageInfo) (msg : ExecuteMsg) :
    Outcome (TokenState × Response) :=
  match msg with
  | .router rmsg => routerHandle st info rmsg
  | .handle hmsg => mailbox_handle st info hmsg
  | .receive rmsg =>
    obind (Item.load st.token) fun token =>
    if info.sender = token then
      obind (fromBinaryReceive rmsg.msg) fun parsed =>
      match parsed with
      | .transferRemote destDomain recipient => transfer_remote st rmsg destDomain recipient
    else .err .unauthorized

/-- Events reported by the completed submessage (`SubMsgResponse.events`). -/
structure SubMsgResponse where
  events : List Event
  data : Option HexBinary
  deriving DecidableEq, Repr

/-- `cosmwasm_std::SubMsgResult`. -/
inductive SubMsgResult where
  | ok (resp : SubMsgResponse)
  | err (msg : String)
  deriving DecidableEq, Repr

/-- `cosmwasm_std::Reply`. -/
structure Reply where
  id : Nat
  result : SubMsgResult
  deriving DecidableEq, Repr

/-- `msg.result.unwrap()`: panics on the error variant. -/
def SubMsgResult.unwrapO {β : Type} (r : SubMsgResult) (f : SubMsgResponse → Outcome β) :
    Outcome β :=
  match r with
  | .ok resp => f resp
  | .err _ => .panic "called unwrap on an err SubMsgResult"

/-- Modelled from the spec: `cw_utils::parse_instantiate_response_data`
(collaborator crate outside the excerpt) extracts the created contract's
address string from the callback payload (spec section 4.5); empty data is
the representative malformed payload. -/
def parse_instantiate_response_data (data : HexBinary) : Except ContractError String :=
  if data = [] then .error (.std "parse instantiate response failed")
  else .ok (String.mk (data.map Char.ofNat))

/-- `reply` (contract.rs lines 106-124): only the `REPLY_ID_CREATE_DENOM`
tag is accepted; the handler unwraps the result and its data (panicking on
an error result or absent data), parses the created address and stores it
as TOKEN unconditionally. -/
def reply (st : TokenState) (_env : EnvT) (msg : Reply) : Outcome (TokenState × Response) :=
  if msg.id = REPLY_ID_CREATE_DENOM then
    msg.result.unwrapO fun resp =>
    oexpect resp.data "called unwrap on a none data" fun reply_data =>
    obind (parse_instantiate_response_data reply_data) fun init_resp =>
    obind (addrValidate init_resp) fun init_addr =>
    let st := { st with token := some init_addr }
    .ok (st, Response.new.addEvent
      ((new_event "reply-init").addAttribute "new_token" init_addr))
  else .err .invalidReplyId

end WarpCw20

namespace HookAggregate

/-! Embedding of src/contracts/hooks/aggregate/src/lib.rs. -/

/-- Persisted storage of the aggregate hook: the `HOOKS` item saved by
lib.rs and the owner kept by the external `hpl_ownable` helper. -/
structure HookState where
  owner : Option Addr
  hooks : Option (List Addr)
  deriving DecidableEq, Repr

/-- Modelled from the spec: the packed per-hook metadata
(`hpl_interface::types::AggregateMetadata`, a codec outside the excerpt;
spec section 9 leaves the byte layout open as offset table plus payload).
`offsets` holds one starting offset per slot; slot `i`'s slice runs from
`offsets[i]` to the next offset (the last slice runs to the end of
`payload`). -/
structure PackedMetadata where
  offsets : List Nat
  payload : HexBinary
  deriving DecidableEq, Repr

/-- Slices of the payload delimited by consecutive offsets; the final slice
extends to the end of the payload. -/
def sliceList (payload : HexBinary) : List Nat → List HexBinary
  | [] => []
  | [o] => [payload.drop o]
  | o₁ :: o₂ :: rest => ((payload.drop o₁).take (o₂ - o₁)) :: sliceList payload (o₂ :: rest)

/-- Monotonicity of consecutive offsets. -/
def offsetsMono : List Nat → Bool
  | [] => true
  | [_] => true
  | o₁ :: o₂ :: rest => decide (o₁ ≤ o₂) && offsetsMono (o₂ :: rest)

/-- Validity of the offset table against the payload: offsets are monotone
and in range (spec section 4.3: non-monotonic or out-of-range offsets are
malformed). -/
def offsetsValid (md : PackedMetadata) : Prop :=
  offsetsMono md.offsets = true ∧ ∀ o ∈ md.offsets, o ≤ md.payload.length

instance (md : PackedMetadata) : Decidable (offsetsValid md) :=
  inferInstanceAs (Decidable (offsetsMono md.offsets = true ∧
    ∀ o ∈ md.offsets, o ≤ md.payload.length))

/-- Modelled from the spec: `AggregateMetadata::from_hex` decodes the packed
metadata into one slice per configured hook, in list order; decoding fails
when the offset table's slot count differs from the hook count or the table
is malformed (spec section 4.3). -/
def AggregateMetadata.from_hex (md : PackedMetadata) (hooks : List Addr) :
    Except ContractError (List (Addr × HexBinary)) :=
  if md.offsets.length ≠ hooks.length then
    .error (.std "aggregate metadata: slot count mismatch")
  else if ¬ offsetsValid md then
    .error (.std "aggregate metadata: malformed offset table")
  else
    .ok (hooks.zip (sliceList md.payload md.offsets))

/-- Event helper of the aggregate hook crate (lib.rs lines 28-30). -/
def new_event (name : String) : Event := ⟨"hpl_hook_aggregate::" ++ name, []⟩

/-- Modelled from the spec: the content-addressed message id
(`Message::id`, spec section 4.1 — a 256-bit hash of the canonical
encoding, external to the excerpt), rendered in hex for the event. -/
def messageId (message : HexBinary) : String := hexOfBytes message

/-- `InstantiateMsg` of the aggregate hook. -/
structure InstantiateMsg where
  owner : String
  hooks : List String
  deriving DecidableEq, Repr

/-- `PostDispatchMsg`: the dispatched message and the packed metadata. -/
structure PostDispatchMsg where
  message : HexBinary
  metadata : PackedMetadata
  deriving DecidableEq, Repr

/-- Modelled from the spec: the ownership helper's message surface (spec
section 1 treats `hpl_ownable` as an external collaborator exposing
`is_owner` / `set_owner`). -/
inductive OwnableMsg where
  | setOwner (next : String)
  deriving DecidableEq, Repr

/-- `ExecuteMsg` of the aggregate hook. -/
inductive ExecuteMsg where
  | ownable (msg : OwnableMsg)
  | postDispatch (msg : PostDispatchMsg)
  | setHooks (hooks : List String)
  deriving DecidableEq, Repr

/-- Modelled from the spec: `hpl_ownable::handle` — only the current owner
may replace the owner (spec section 1). -/
def ownableHandle (st : HookState) (info : MessageInfo) :
    OwnableMsg → Except ContractError (HookState × Response)
  | .setOwner next =>
    ebind (Item.load st.owner) fun owner =>
    if info.sender = owner then
      ebind (addrValidate next) fun nextAddr =>
      .ok ({ st with owner := some nextAddr }, Response.new)
    else .error .unauthorized

/-- `instantiate` (lib.rs lines 32-58): validates owner and hooks, stores
both (cw2 version bookkeeping elided). -/
def instantiate (st : HookState) (_env : EnvT) (info : MessageInfo) (msg : InstantiateMsg) :
    Except ContractError (HookState × Response) :=
  ebind (addrValidate msg.owner) fun owner =>
  ebind (validateAll msg.hooks) fun hooks =>
  let st := { st with owner := some owner, hooks := some hooks }
  .ok (st, Response.new.addEvent
    ((new_event "initialize").addAttribute "sender" info.sender
      |>.addAttribute "owner" owner
      |>.addAttribute "hooks" (String.intercalate "," msg.hooks)))

/-- `execute` (lib.rs lines 60-107).  `PostDispatch` loads the hook list,
decodes the packed metadata into per-hook slices and emits one forwarding
`post_dispatch` call per hook in list order; `SetHooks` is owner-gated and
replaces the stored list. -/
def execute (st : HookState) (_env : EnvT) (info : MessageInfo) (msg : ExecuteMsg) :
    Except ContractError (HookState × Response) :=
  match msg with
  | .ownable m => ownableHandle st info m
  | .postDispatch pd =>
    ebind (Item.load st.hooks) fun hooks =>
    ebind (AggregateMetadata.from_hex pd.metadata hooks) fun pairs =>
    let msgs := pairs.map fun p => CosmosMsg.hookPostDispatch p.1 p.2 pd.message
    .ok (st, Response.new.addMessages msgs |>.addEvent
      ((new_event "post_dispatch").addAttribute "message_id" (messageId pd.message)))
  | .setHooks hooks =>
    ebind (Item.load st.owner) fun owner =>
    if owner = info.sender then
      ebind (validateAll hooks) fun parsed =>
      let st := { st with hooks := some parsed }
      .ok (st, Response.new.addEvent
        ((new_event "set_hooks").addAttribute "sender" info.sender
          |>.addAttribute "hooks" (String.intercalate "," hooks)))
    else .error .unauthorized

/-- `MailboxResponse`. -/
structure MailboxResponse where
  mailbox : String
  deriving DecidableEq, Repr

/-- `QuoteDispatchResponse`: an optional gas quote. -/
structure QuoteDispatchResponse where
  gasAmount : Option Nat
  deriving DecidableEq, Repr

/-- `HooksResponse`. -/
structure HooksResponse where
  hooks : List String
  deriving DecidableEq, Repr

/-- Argument of the `QuoteDispatch` hook query. -/
structure QuoteDispatchParams where
  metadata : HexBinary
  message : HexBinary
  deriving DecidableEq, Repr

/-- `HookQueryMsg`. -/
inductive HookQueryMsg where
  | mailbox
  | quoteDispatch (params : QuoteDispatchParams)
  deriving DecidableEq, Repr

/-- `AggregateHookQueryMsg`. -/
inductive AggregateHookQueryMsg where
  | hooks
  deriving DecidableEq, Repr

/-- `QueryMsg` of the aggregate hook (the `Ownable` arm is the external
ownership helper's query, modelled as the owner lookup). -/
inductive QueryMsg where
  | ownable
  | hook (msg : HookQueryMsg)
  | aggregateHook (msg : AggregateHookQueryMsg)
  deriving DecidableEq, Repr

/-- Decoded query responses (the source returns them `to_binary`-encoded). -/
inductive QueryResult where
  | owner (r : Addr)
  | mailbox (r : MailboxResponse)
  | quote (r : QuoteDispatchResponse)
  | hooks (r : HooksResponse)
  deriving DecidableEq, Repr

/-- `get_mailbox` (lib.rs lines 123-127): the sentinel unrestricted
mailbox. -/
def get_mailbox (_st : HookState) : Except ContractError MailboxResponse :=
  .ok ⟨"unrestricted"⟩

/-- `quote_dispatch` (lib.rs lines 129-131): always reports the absence of
a gas quote, consulting neither state nor sub-hooks. -/
def quote_dispatch : Except ContractError QuoteDispatchResponse :=
  .ok ⟨none⟩

/-- `get_hooks` (lib.rs lines 133-141). -/
def get_hooks (st : HookState) : Except ContractError HooksResponse :=
  ebind (Item.load st.hooks) fun hooks => .ok ⟨hooks⟩

/-- `query` (lib.rs lines 109-121). -/
def query (st : HookState) (_env : EnvT) (msg : QueryMsg) : Except ContractError QueryResult :=
  match msg with
  | .ownable => ebind (Item.load st.owner) fun o => .ok (.owner o)
  | .hook .mailbox => ebind (get_mailbox st) fun r => .ok (.mailbox r)
  | .hook (.quoteDispatch _) => ebind quote_dispatch fun r => .ok (.quote r)
  | .aggregateHook .hooks => ebind (get_hooks st) fun r => .ok (.hooks r)

end HookAggregate

/-! Shared helper lemmas and concrete fixture states used by the claim
theorems and their witnesses. -/

/-- Validation passes a list of well-formed (non-empty) address strings
through unchanged. -/
theorem validateAll_ok : ∀ (l : List String), (∀ x ∈ l, x ≠ "") → validateAll l = .ok l
  | [], _ => rfl
  | s :: rest, h => by
    have hs : s ≠ "" := h s (List.mem_cons_self s rest)
    have hrest := validateAll_ok rest (fun x hx => h x (List.mem_cons_of_mem s hx))
    simp [validateAll, addrValidate, hs, hrest]

/-- The slice decomposition yields exactly one slice per offset slot. -/
theorem sliceList_length (payload : HexBinary) :
    ∀ offs : List Nat, (HookAggregate.sliceList payload offs).length = offs.length
  | [] => rfl
  | [_] => rfl
  | o₁ :: o₂ :: rest => by
    simp [HookAggregate.sliceList, sliceList_length payload (o₂ :: rest)]

/-- A fully configured Bridged-mode token bridge with a route for domain 5. -/
def stBridged : WarpCw20.TokenState :=
  { hrp := some "osmo", mode := some WarpCw20.TokenMode.bridged, mailbox := some "mailbox",
    token := some "token", owner := some "owner", routes := [(5, [7, 7])] }

/-- The same bridge with an empty route table. -/
def stNoRoute : WarpCw20.TokenState := { stBridged with routes := [] }

/-- A configured aggregate hook with two sub-hooks. -/
def stHooks : HookAggregate.HookState := { owner := some "owner", hooks := some ["h1", "h2"] }

/-- C1: the claim says resolving an unconfigured domain fails with a
recoverable RouteNotFound error in both `transfer_remote` and
`mailbox_handle`.  The code instead forces the absent route with
`.expect("route not found")` (contract.rs lines 138-144 and 178-180), an
unchecked expectation that terminates execution: at a concrete state with an
empty route table both operations panic rather than return an error value.
This matches the reference behavior the spec flags as a bug to fix
(spec sections 4.4 and 9). -/
theorem c1_route_expect_panics :
    WarpCw20.transfer_remote stNoRoute ⟨"alice", 100, some (.transferRemote 5 [1])⟩ 5 [1]
      = .panic "route not found"
    ∧ WarpCw20.mailbox_handle stNoRoute ⟨"mailbox"⟩ ⟨7, [1, 2], []⟩
      = .panic "route not found" :=
  ⟨rfl, rfl⟩

/-- C5: a reply whose id is not REPLY_ID_CREATE_DENOM fails with
InvalidReplyId (and, being an error, commits no state write). -/
theorem c5_invalid_reply_id (st : WarpCw20.TokenState) (env : EnvT) (r : WarpCw20.Reply)
    (h : r.id ≠ WarpCw20.REPLY_ID_CREATE_DENOM) :
    WarpCw20.reply st env r = .err .invalidReplyId := by
  simp [WarpCw20.reply, h]

/-- Witness for C5 at the concrete reply id 7. -/
theorem c5_invalid_reply_id_witness :
    WarpCw20.reply stBridged ⟨"contract"⟩ ⟨7, .err "boom"⟩ = .err .invalidReplyId :=
  c5_invalid_reply_id stBridged ⟨"contract"⟩ ⟨7, .err "boom"⟩ (by decide)

/-- C8: the aggregator's QuoteDispatch query reports the absence of a gas
quote for every contract state and every quote request; `quote_dispatch`
consults neither state nor sub-hooks. -/
theorem c8_quote_dispatch_none (st : HookAggregate.HookState) (env : EnvT)
    (params : HookAggregate.QuoteDispatchParams) :
    HookAggregate.query st env (.hook (.quoteDispatch params)) = .ok (.quote ⟨none⟩) :=
  rfl

/-- C9: for every contract state — token already stored or not — a
REPLY_ID_CREATE_DENOM reply whose payload parses to a valid address `a`
succeeds and stores `a` as the token: the handler has no guard against
overwriting an already-set token. -/
theorem c9_reply_overwrites_token (st : WarpCw20.TokenState) (env : EnvT)
    (evs : List Event) (d : HexBinary) (a : String)
    (hp : WarpCw20.parse_instantiate_response_data d = .ok a) (ha : a ≠ "") :
    Outcome.map (fun p => p.1.token)
        (WarpCw20.reply st env ⟨WarpCw20.REPLY_ID_CREATE_DENOM, .ok ⟨evs, some d⟩⟩)
      = .ok (some a) := by
  simp [WarpCw20.reply, WarpCw20.SubMsgResult.unwrapO, hp, addrValidate, ha]

/-- Witness for C9: a state whose token is already set to "old" gets
overwritten with the address parsed from the callback payload. -/
theorem c9_reply_overwrites_token_witness :
    Outcome.map (fun p => p.1.token)
        (WarpCw20.reply stBridged ⟨"contract"⟩
          ⟨WarpCw20.REPLY_ID_CREATE_DENOM, .ok ⟨[], some [110, 101, 119]⟩⟩)
      = .ok (some "new") :=
  c9_reply_overwrites_token stBridged ⟨"contract"⟩ [] [110, 101, 119] "new"
    rfl (by decide)

/-- C10: the REPLY_ID_CREATE_DENOM handler unwraps `msg.result` and its
`data` field (contract.rs line 110), so a reply with the correct id but an
error result, or a success result with absent data, panics instead of
returning an error value. -/
theorem c10_reply_unwrap_panics (st : WarpCw20.TokenState) (env : EnvT) (s : String)
    (evs : List Event) :
    WarpCw20.reply st env ⟨WarpCw20.REPLY_ID_CREATE_DENOM, .err s⟩
      = .panic "called unwrap on an err SubMsgResult"
    ∧ WarpCw20.reply st env ⟨WarpCw20.REPLY_ID_CREATE_DENOM, .ok ⟨evs, none⟩⟩
      = .panic "called unwrap on a none data" :=
  ⟨rfl, rfl⟩

/-- C2: in Bridged mode with a configured route `r` for domain `d`,
`receive_local` (the `Receive`/`TransferRemote` path) called by the
configured token contract emits exactly two side-effect messages in order —
first a burn of the amount against the token, then a mailbox dispatch to
`r` carrying recipient, amount and empty metadata — while any other caller
fails Unauthorized (and an error commits nothing). -/
theorem c2_receive_local_bridged (st : WarpCw20.TokenState) (env : EnvT) (t mb : Addr)
    (r : HexBinary) (a d : Nat) (sndr caller : String) (rcp : HexBinary)
    (hm : st.mode = some .bridged) (ht : st.token = some t) (hmb : st.mailbox = some mb)
    (hr : WarpCw20.routeLookup st.routes d = some r) (hc : caller ≠ t) :
    (Outcome.map (fun p => p.2.messages)
        (WarpCw20.execute st env ⟨t⟩ (.receive ⟨sndr, a, some (.transferRemote d rcp)⟩))
      = .ok [SubMsg.new (.burn t a),
             SubMsg.new (.mailboxDispatch mb d r ⟨rcp, a, []⟩ none none)])
    ∧ WarpCw20.execute st env ⟨caller⟩ (.receive ⟨sndr, a, some (.transferRemote d rcp)⟩)
        = .err .unauthorized := by
  constructor
  · simp [WarpCw20.execute, WarpCw20.transfer_remote, WarpCw20.get_route,
      WarpCw20.fromBinaryReceive, Response.new, Response.addMessages, Response.addEvent,
      ht, hm, hmb, hr]
  · simp [WarpCw20.execute, ht, hc]

/-- Witness for C2 on the concrete Bridged fixture: amount 100 to domain 5
with route [7, 7]; the non-token caller "mallory" is rejected. -/
theorem c2_receive_local_bridged_witness :
    (Outcome.map (fun p => p.2.messages)
        (WarpCw20.execute stBridged ⟨"c"⟩ ⟨"token"⟩
          (.receive ⟨"alice", 100, some (.transferRemote 5 [9])⟩))
      = .ok [SubMsg.new (.burn "token" 100),
             SubMsg.new (.mailboxDispatch "mailbox" 5 [7, 7] ⟨[9], 100, []⟩ none none)])
    ∧ WarpCw20.execute stBridged ⟨"c"⟩ ⟨"mallory"⟩
        (.receive ⟨"alice", 100, some (.transferRemote 5 [9])⟩)
        = .err .unauthorized :=
  c2_receive_local_bridged stBridged ⟨"c"⟩ "token" "mailbox" [7, 7] 100 5 "alice" "mallory"
    [9] rfl rfl rfl rfl (by decide)

/-- C3: with mailbox `mb` stored and route `r` configured for the message's
origin domain (and HRP, token and mode present), `mailbox_handle` succeeds
exactly when the caller is the mailbox and the message's origin sender
equals `r`; if the caller is not the mailbox, or the configured route
differs from the origin sender, it fails Unauthorized (an error commits
nothing). -/
theorem c3_mailbox_handle_auth (st : WarpCw20.TokenState) (info : MessageInfo)
    (hmsg : WarpCw20.HandleMsg) (mb tok : Addr) (r : HexBinary) (hrp : String)
    (mode : WarpCw20.TokenMode)
    (hmb : st.mailbox = some mb) (hr : WarpCw20.routeLookup st.routes hmsg.origin = some r)
    (hh : st.hrp = some hrp) (ht : st.token = some tok) (hm : st.mode = some mode) :
    WarpCw20.mailbox_handle st info hmsg =
      if info.sender = mb then
        if hmsg.sender = r then
          (let tokenMsg := WarpCw20.warpMessageOfBytes hmsg.body
           let recipient := hrp ++ "1" ++ hexOfBytes tokenMsg.recipient
           let m := match mode with
             | .bridged => CosmosMsg.mint tok recipient tokenMsg.amount
             | .collateral => CosmosMsg.transfer tok recipient tokenMsg.amount
           .ok (st, Response.new.addMessage m |>.addEvent
             ((WarpCw20.new_event "handle").addAttribute "recipient" recipient
               |>.addAttribute "token" tok
               |>.addAttribute "amount" (toString tokenMsg.amount))))
        else .err .unauthorized
      else .err .unauthorized := by
  cases mode <;>
    simp only [WarpCw20.mailbox_handle, hmb, Item.load_some, obind_ok, WarpCw20.get_route,
      hr, oexpect_some, hh, ht, hm, WarpCw20.bech32_encode]

/-- Witness for C3: the configured mailbox with the configured router for
domain 5 succeeds (a mint is emitted in Bridged mode); a non-mailbox caller
and a spoofed router are both rejected. -/
theorem c3_mailbox_handle_auth_witness :
    (WarpCw20.mailbox_handle stBridged ⟨"mailbox"⟩ ⟨5, [7, 7], []⟩ =
      .ok (stBridged, Response.new.addMessage (.mint "token" "osmo1" 0) |>.addEvent
        ((WarpCw20.new_event "handle").addAttribute "recipient" "osmo1"
          |>.addAttribute "token" "token"
          |>.addAttribute "amount" "0"))) := by
  have h := c3_mailbox_handle_auth stBridged ⟨"mailbox"⟩ ⟨5, [7, 7], []⟩ "mailbox" "token"
    [7, 7] "osmo" .bridged rfl rfl rfl rfl rfl
  simpa [WarpCw20.warpMessageOfBytes, hexOfBytes] using h

/-- C4: Collateral-mode instantiate with a valid token address `A` stores
`token = A` synchronously and emits no sub-messages; Bridged-mode
instantiate emits exactly one sub-instantiation SubMsg tagged with
REPLY_ID_CREATE_DENOM and leaves `token` absent; a successful
REPLY_ID_CREATE_DENOM reply whose payload parses to valid address `a`
results in `token = a`. -/
theorem c4_instantiate_modes (st st2 : WarpCw20.TokenState) (env : EnvT) (info : MessageInfo)
    (hrp ow mbx A : String) (codeId : Nat) (initMsg d : HexBinary) (a : String)
    (evs : List Event)
    (how : ow ≠ "") (hmbx : mbx ≠ "") (hA : A ≠ "") (ht : st.token = none)
    (hp : WarpCw20.parse_instantiate_response_data d = .ok a) (ha : a ≠ "") :
    (Outcome.map (fun p => (p.1.token, p.2.messages))
        (WarpCw20.instantiate st2 env info ⟨.collateralMode A, hrp, ow, mbx⟩)
      = .ok (some A, []))
    ∧ (Outcome.map (fun p => (p.1.token, p.2.messages))
        (WarpCw20.instantiate st env info ⟨.bridgedMode codeId initMsg, hrp, ow, mbx⟩)
      = .ok (none, [SubMsg.replyOnSuccess
          (.wasmInstantiate (some env.contractAddress) codeId initMsg "token warp cw20")
          WarpCw20.REPLY_ID_CREATE_DENOM]))
    ∧ (Outcome.map (fun p => p.1.token)
        (WarpCw20.reply st env ⟨WarpCw20.REPLY_ID_CREATE_DENOM, .ok ⟨evs, some d⟩⟩)
      = .ok (some a)) := by
  refine ⟨?_, ?_, ?_⟩
  · simp [WarpCw20.instantiate, addrValidate, how, hmbx, hA,
      Response.new, Response.addSubmessages, Response.addEvent]
  · simp [WarpCw20.instantiate, addrValidate, how, hmbx, ht,
      Response.new, Response.addSubmessages, Response.addEvent]
  · simp [WarpCw20.reply, WarpCw20.SubMsgResult.unwrapO, hp, addrValidate, ha]

/-- Witness for C4 at concrete inputs: Collateral with token "cw20",
Bridged with code id 9, and a reply payload decoding to "new". -/
theorem c4_instantiate_modes_witness :
    (Outcome.map (fun p => (p.1.token, p.2.messages))
        (WarpCw20.instantiate WarpCw20.TokenState.empty ⟨"self"⟩ ⟨"deployer"⟩
          ⟨.collateralMode "cw20", "osmo", "owner", "mailbox"⟩)
      = .ok (some "cw20", []))
    ∧ (Outcome.map (fun p => (p.1.token, p.2.messages))
        (WarpCw20.instantiate WarpCw20.TokenState.empty ⟨"self"⟩ ⟨"deployer"⟩
          ⟨.bridgedMode 9 [3], "osmo", "owner", "mailbox"⟩)
      = .ok (none, [SubMsg.replyOnSuccess
          (.wasmInstantiate (some "self") 9 [3] "token warp cw20")
          WarpCw20.REPLY_ID_CREATE_DENOM]))
    ∧ (Outcome.map (fun p => p.1.token)
        (WarpCw20.reply WarpCw20.TokenState.empty ⟨"self"⟩
          ⟨WarpCw20.REPLY_ID_CREATE_DENOM, .ok ⟨[], some [110, 101, 119]⟩⟩)
      = .ok (some "new")) :=
  c4_instantiate_modes WarpCw20.TokenState.empty WarpCw20.TokenState.empty ⟨"self"⟩
    ⟨"deployer"⟩ "osmo" "owner" "mailbox" "cw20" 9 [3] [110, 101, 119] "new" []
    (by decide) (by decide) (by decide) rfl rfl (by decide)

/-- C6: with owner `o` stored, SetHooks called by the owner with a list of
valid addresses replaces the stored hook list with exactly that list;
called by anyone else — for any requested list — it fails Unauthorized (an
error commits nothing, so the stored list is unchanged). -/
theorem c6_set_hooks_owner_gated (st : HookAggregate.HookState) (env : EnvT)
    (info : MessageInfo) (o : Addr) (hs hs2 : List String)
    (hwo : st.owner = some o) (hval : ∀ x ∈ hs, x ≠ "") :
    (HookAggregate.execute st env info (.setHooks hs) =
      if o = info.sender then
        .ok ({ st with hooks := some hs },
          Response.new.addEvent
            ((HookAggregate.new_event "set_hooks").addAttribute "sender" info.sender
              |>.addAttribute "hooks" (String.intercalate "," hs)))
      else .error .unauthorized)
    ∧ (o ≠ info.sender →
        HookAggregate.execute st env info (.setHooks hs2) = .error .unauthorized) := by
  constructor
  · simp only [HookAggregate.execute, hwo, Item.load_some, ebind_ok,
      validateAll_ok hs hval]
  · intro hne
    simp [HookAggregate.execute, hwo, hne]

/-- Witness for C6: the owner replaces the two stored hooks with a single
new one; the non-owner "mallory" is rejected. -/
theorem c6_set_hooks_owner_gated_witness :
    (HookAggregate.execute stHooks ⟨"self"⟩ ⟨"owner"⟩ (.setHooks ["h3"]) =
      .ok ({ stHooks with hooks := some ["h3"] },
        Response.new.addEvent
          ((HookAggregate.new_event "set_hooks").addAttribute "sender" "owner"
            |>.addAttribute "hooks" (String.intercalate "," ["h3"])))) ∧
    HookAggregate.execute stHooks ⟨"self"⟩ ⟨"mallory"⟩ (.setHooks ["h3"]) =
      .error .unauthorized := by
  have h := c6_set_hooks_owner_gated stHooks ⟨"self"⟩ ⟨"owner"⟩ "owner" ["h3"] ["h3"]
    rfl (by decide)
  have h2 := c6_set_hooks_owner_gated stHooks ⟨"self"⟩ ⟨"mallory"⟩ "owner" ["h3"] ["h3"]
    rfl (by decide)
  exact ⟨by simpa using h.1, h2.2 (by decide)⟩

/-- C7: with hook list `hs` stored, PostDispatch on packed metadata whose
offset table validly assigns one slice per hook emits exactly one
forwarding call per hook, in hook-list order, the i-th carrying the
message and the i-th slice; metadata whose offset-table slot count differs
from the hook count is rejected with an error. -/
theorem c7_post_dispatch_slices (st : HookAggregate.HookState) (env : EnvT)
    (info : MessageInfo) (hs : List Addr) (md md2 : HookAggregate.PackedMetadata)
    (message : HexBinary)
    (hh : st.hooks = some hs)
    (hlen : md.offsets.length = hs.length) (hval : HookAggregate.offsetsValid md)
    (hlen2 : md2.offsets.length ≠ hs.length) :
    (Except.map (fun p => p.2.messages)
        (HookAggregate.execute st env info (.postDispatch ⟨message, md⟩))
      = .ok ((hs.zip (HookAggregate.sliceList md.payload md.offsets)).map
          (fun p => SubMsg.new (.hookPostDispatch p.1 p.2 message))))
    ∧ (hs.zip (HookAggregate.sliceList md.payload md.offsets)).length = hs.length
    ∧ (HookAggregate.execute st env info (.postDispatch ⟨message, md2⟩)
      = .error (.std "aggregate metadata: slot count mismatch")) := by
  refine ⟨?_, ?_, ?_⟩
  · simp [HookAggregate.execute, HookAggregate.AggregateMetadata.from_hex, hh, hlen, hval,
      Except.map, Response.new, Response.addMessages, Response.addEvent]
  · simp [List.length_zip, sliceList_length, hlen]
  · simp [HookAggregate.execute, HookAggregate.AggregateMetadata.from_hex, hh, hlen2]

/-- Witness for C7: two hooks, payload [1, 2, 3, 4] split at offsets 0 and
3 into [1, 2, 3] and [4]; a one-slot table against two hooks is rejected. -/
theorem c7_post_dispatch_slices_witness :
    (Except.map (fun p => p.2.messages)
        (HookAggregate.execute stHooks ⟨"self"⟩ ⟨"anyone"⟩
          (.postDispatch ⟨[9], ⟨[0, 3], [1, 2, 3, 4]⟩⟩))
      = .ok [SubMsg.new (.hookPostDispatch "h1" [1, 2, 3] [9]),
             SubMsg.new (.hookPostDispatch "h2" [4] [9])])
    ∧ HookAggregate.execute stHooks ⟨"self"⟩ ⟨"anyone"⟩
        (.postDispatch ⟨[9], ⟨[0], [1, 2, 3, 4]⟩⟩)
      = .error (.std "aggregate metadata: slot count mismatch") := by
  have h := c7_post_dispatch_slices stHooks ⟨"self"⟩ ⟨"anyone"⟩ ["h1", "h2"]
    ⟨[0, 3], [1, 2, 3, 4]⟩ ⟨[0], [1, 2, 3, 4]⟩ [9] rfl (by decide) (by decide) (by decide)
  exact ⟨by simpa [HookAggregate.sliceList] using h.1, h.2.2⟩
